import Mathlib

/-!
Verification of `scripts/create_app_user.py`: a one-shot provisioning script
that reads configuration from the process environment, connects to MongoDB as
an administrator, and issues a single `createUser` command granting the
`readWrite` role on one application database.

The embedding is shallow: the environment is a record of the seven variables
the script reads (each possibly unset); the module-level configuration code
(lines 12-26 of the script) becomes `loadConfig`; the `create_app_user`
routine (lines 29-54) becomes a function from a configuration and a `World`
oracle — describing what each pymongo call does on this run — to a `RunTrace`
recording everything observable: lines printed, whether the client was
constructed and closed, the command records issued, and any exception that
escapes the routine. `runProgram` ties the two together like the
`if __name__ == "__main__"` block.
-/

namespace CreateAppUser

/-- The process environment as the script sees it: each of the seven
variables read via `os.getenv`, `none` when unset. An environment variable
set to the empty string is `some ""` (distinct from unset). -/
structure Env where
  MONGO_HOST : Option String
  MONGO_PORT : Option String
  MONGO_ADMIN_USER : Option String
  MONGO_ADMIN_PASSWORD : Option String
  MONGO_DB : Option String
  APP_DB_USER : Option String
  APP_DB_PASSWORD : Option String
deriving DecidableEq, Repr

/-- Python truthiness test on an optional string: `not x` is true exactly
when the variable is unset (`None`) or set to the empty string. -/
def pyFalsy : Option String → Bool
  | none => true
  | some s => s.isEmpty

/-- Tail of a valid Python integer literal body: digits, with single
underscores allowed only between digits (Python 3.6+ grouping). -/
def pyIntRest : List Char → Bool
  | [] => true
  | c :: cs =>
    if c.isDigit then pyIntRest cs
    else if c = '_' then
      match cs with
      | [] => false
      | d :: ds => d.isDigit && pyIntRest ds
    else false

/-- A valid Python integer literal body: nonempty, starts with a digit,
underscores only between digits. -/
def pyIntBody : List Char → Bool
  | [] => false
  | c :: cs => c.isDigit && pyIntRest cs

/-- Numeric value of a digit/underscore sequence, ignoring underscores. -/
def digitsVal (l : List Char) : Nat :=
  l.foldl (fun acc c => if c.isDigit then acc * 10 + (c.toNat - 48) else acc) 0

/-- Strip leading and trailing whitespace, as Python `int()` does before
parsing. -/
def pyStrip (l : List Char) : List Char :=
  ((l.dropWhile Char.isWhitespace).reverse.dropWhile Char.isWhitespace).reverse

/-- Python `int(s)` on a string: strip surrounding whitespace, allow one
optional sign, then a digit sequence (with underscore grouping). Returns
`none` when `int()` would raise `ValueError`. -/
def pyIntParse (s : String) : Option Int :=
  let l := pyStrip s.toList
  match l with
  | '+' :: rest => if pyIntBody rest then some (Int.ofNat (digitsVal rest)) else none
  | '-' :: rest => if pyIntBody rest then some (-(Int.ofNat (digitsVal rest))) else none
  | _ => if pyIntBody l then some (Int.ofNat (digitsVal l)) else none

/-- The validated configuration assembled by the script's module-level code
(lines 12-26): script-global names and their values. -/
structure Config where
  MONGO_HOST : String
  MONGO_PORT : Int
  ADMIN_USER : String
  ADMIN_PASS : String
  APP_DB : String
  APP_USER : String
  APP_PASS : String
deriving DecidableEq, Repr

/-- The error line printed when the admin password is missing (line 17). -/
def err_admin_pass : String :=
  "ERROR: MONGO_ADMIN_PASSWORD environment variable must be set"

/-- The error line printed when the app password is missing (line 25). -/
def err_app_pass : String :=
  "ERROR: APP_DB_PASSWORD environment variable must be set"

/-- Outcome of the module-level configuration code, which runs strictly top
to bottom: `int(os.getenv("MONGO_PORT", "27031"))` on line 13 runs before
either password check, so an unparsable port raises `ValueError` first. -/
inductive LoadResult
  | ok (cfg : Config)
  | configError (msg : String)
  | parseError
deriving DecidableEq, Repr

/-- Lines 12-26 of the script: read each variable with its default, parse the
port, and check each required secret with Python truthiness, exiting with the
corresponding error message when one is missing or empty. -/
def loadConfig (e : Env) : LoadResult :=
  let host := e.MONGO_HOST.getD "127.0.0.1"
  match pyIntParse (e.MONGO_PORT.getD "27031") with
  | none => LoadResult.parseError
  | some port =>
    let adminUser := e.MONGO_ADMIN_USER.getD "mongo-1"
    if pyFalsy e.MONGO_ADMIN_PASSWORD then
      LoadResult.configError err_admin_pass
    else
      let adminPass := e.MONGO_ADMIN_PASSWORD.getD ""
      let appDb := e.MONGO_DB.getD "appdb"
      let appUser := e.APP_DB_USER.getD "appuser"
      if pyFalsy e.APP_DB_PASSWORD then
        LoadResult.configError err_app_pass
      else
        let appPass := e.APP_DB_PASSWORD.getD ""
        LoadResult.ok
          { MONGO_HOST := host, MONGO_PORT := port, ADMIN_USER := adminUser,
            ADMIN_PASS := adminPass, APP_DB := appDb, APP_USER := appUser,
            APP_PASS := appPass }

/-- A Python exception as the script can observe it: either a
`pymongo.errors.OperationFailure` (the only class the script catches, line
48) carrying its `str(e)` message, or any other exception (for example
`ServerSelectionTimeoutError`/`ConnectionFailure` for an unreachable server,
or `InvalidName` from selecting an invalid database name — none of which are
subclasses of `OperationFailure`). -/
inductive PyExc
  | operationFailure (msg : String)
  | otherError (msg : String)
deriving DecidableEq, Repr

/-- What each of the three pymongo calls does on this run. `pymongo` is an
external library: its behavior (server reachable or not, user already present
or not, URI or database name accepted or not) is an oracle, not repository
code. `ctorExc`: exception raised by `pymongo.MongoClient(uri, ...)` (line
36), if any — e.g. `InvalidURI` for unescaped credential characters.
`selectExc`: exception raised by `client[APP_DB]` (line 37), if any —
pymongo raises `InvalidName` for an empty or invalid database name.
`commandResult`: `none` when `db.command("createUser", ...)` (line 41)
succeeds, otherwise the exception it raises. -/
structure World where
  ctorExc : Option PyExc
  selectExc : Option PyExc
  commandResult : Option PyExc
deriving DecidableEq, Repr

/-- One role grant in the `roles` list of the createUser command. -/
structure RoleGrant where
  role : String
  db : String
deriving DecidableEq, Repr

/-- A record of one `db.command("createUser", ...)` invocation: the command
name, positional user argument, and the `pwd` and `roles` keyword arguments
(lines 41-46). -/
structure CreateUserCmd where
  commandName : String
  user : String
  pwd : String
  roles : List RoleGrant
deriving DecidableEq, Repr

/-- Everything observable about one execution of `create_app_user`:
`printed` — lines written to stdout, in order; `clientCreated` — whether the
`MongoClient` constructor returned; `clientTimeoutMS` and `clientUri` — the
arguments it was constructed with, when it was; `dbSelected` — the database
name selected via `client[...]`, when that step returned; `commandsIssued` —
every `db.command` call made; `clientClosed` — whether `client.close()` ran;
`raised` — the exception escaping the routine, if any. -/
structure RunTrace where
  printed : List String
  clientCreated : Bool
  clientTimeoutMS : Option Int
  clientUri : Option String
  dbSelected : Option String
  commandsIssued : List CreateUserCmd
  clientClosed : Bool
  raised : Option PyExc
deriving DecidableEq, Repr

/-- An ASCII single-quote character, as used in the script's output lines. -/
def sq : String := String.singleton (Char.ofNat 39)

/-- The success line printed on line 47 of the script. -/
def msg_created (user db : String) : String :=
  "User " ++ sq ++ user ++ sq ++ " created with readWrite role on database "
    ++ sq ++ db ++ sq ++ "."

/-- The benign-duplicate line printed on line 50 of the script. -/
def msg_already_exists (user : String) : String :=
  "User " ++ sq ++ user ++ sq ++ " already exists."

/-- The generic-failure line printed on line 52 of the script, embedding
`str(e)` of the caught exception. -/
def msg_failed (emsg : String) : String :=
  "Failed to create user: " ++ emsg

/-- The substring tested against `str(e)` on line 49. -/
def already_exists_marker : String := "already exists"

/-- Python `pat in s` substring containment. -/
def strContains (s pat : String) : Bool :=
  (List.range (s.length + 1)).any (fun i => pat.isPrefixOf (s.drop i))

/-- The connection URI built on lines 32-35. -/
def buildUri (cfg : Config) : String :=
  "mongodb://" ++ cfg.ADMIN_USER ++ ":" ++ cfg.ADMIN_PASS ++ "@"
    ++ cfg.MONGO_HOST ++ ":" ++ toString cfg.MONGO_PORT
    ++ "/admin?directConnection=true&authSource=admin"

/-- The `create_app_user` routine (lines 29-54). The client construction
(line 36) and database selection (line 37) happen before the `try` block; the
`createUser` command and its classification run inside `try`, with only
`OperationFailure` caught (line 48) and `client.close()` in `finally` (line
54), so the `finally` clause runs only for exits that entered the `try`. -/
def create_app_user (cfg : Config) (w : World) : RunTrace :=
  let uri := buildUri cfg
  match w.ctorExc with
  | some e =>
      { printed := [], clientCreated := false, clientTimeoutMS := none,
        clientUri := none, dbSelected := none, commandsIssued := [],
        clientClosed := false, raised := some e }
  | none =>
    match w.selectExc with
    | some e =>
        { printed := [], clientCreated := true, clientTimeoutMS := some 5000,
          clientUri := some uri, dbSelected := none, commandsIssued := [],
          clientClosed := false, raised := some e }
    | none =>
      let cmd : CreateUserCmd :=
        { commandName := "createUser", user := cfg.APP_USER,
          pwd := cfg.APP_PASS,
          roles := [{ role := "readWrite", db := cfg.APP_DB }] }
      match w.commandResult with
      | none =>
          { printed := [msg_created cfg.APP_USER cfg.APP_DB],
            clientCreated := true, clientTimeoutMS := some 5000,
            clientUri := some uri, dbSelected := some cfg.APP_DB,
            commandsIssued := [cmd], clientClosed := true, raised := none }
      | some (PyExc.operationFailure m) =>
          { printed :=
              [if strContains m already_exists_marker then
                  msg_already_exists cfg.APP_USER
                else msg_failed m],
            clientCreated := true, clientTimeoutMS := some 5000,
            clientUri := some uri, dbSelected := some cfg.APP_DB,
            commandsIssued := [cmd], clientClosed := true, raised := none }
      | some (PyExc.otherError m) =>
          { printed := [], clientCreated := true, clientTimeoutMS := some 5000,
            clientUri := some uri, dbSelected := some cfg.APP_DB,
            commandsIssued := [cmd], clientClosed := true,
            raised := some (PyExc.otherError m) }

/-- How the process terminates. `normal`: the script ran to completion (exit
code 0). `configExit`: `sys.exit(1)` after printing an ERROR line.
`parseCrash`: uncaught `ValueError` from `int()` during configuration
loading. `uncaught`: an exception escaped `create_app_user`. A Python
process terminated by an uncaught exception exits with status 1. -/
inductive ExitKind
  | normal
  | configExit
  | parseCrash
  | uncaught (e : PyExc)
deriving DecidableEq, Repr

/-- The process exit status for each termination kind: 0 on normal
completion, 1 for `sys.exit(1)`, and 1 for any uncaught exception (Python
interpreter behavior). -/
def exitCode : ExitKind → Nat
  | ExitKind.normal => 0
  | ExitKind.configExit => 1
  | ExitKind.parseCrash => 1
  | ExitKind.uncaught _ => 1

/-- The observable result of one whole process run: stdout lines, how the
process exited, and the trace of `create_app_user` when it ran at all. -/
structure ProgResult where
  printed : List String
  exit : ExitKind
  trace : Option RunTrace
deriving DecidableEq, Repr

/-- Whether the run ever constructed the network client. -/
def connectionAttempted (r : ProgResult) : Bool :=
  match r.trace with
  | none => false
  | some t => t.clientCreated

/-- The whole script: module-level configuration loading, then the
`if __name__ == "__main__"` call to `create_app_user` (lines 57-58). -/
def runProgram (e : Env) (w : World) : ProgResult :=
  match loadConfig e with
  | LoadResult.parseError => { printed := [], exit := ExitKind.parseCrash, trace := none }
  | LoadResult.configError m => { printed := [m], exit := ExitKind.configExit, trace := none }
  | LoadResult.ok cfg =>
    let t := create_app_user cfg w
    match t.raised with
    | none => { printed := t.printed, exit := ExitKind.normal, trace := some t }
    | some ex => { printed := t.printed, exit := ExitKind.uncaught ex, trace := some t }

/-- A world in which every pymongo step succeeds. -/
def w_allOk : World := { ctorExc := none, selectExc := none, commandResult := none }

/-- An environment with both secrets set and every optional variable unset. -/
def env_ok : Env :=
  { MONGO_HOST := none, MONGO_PORT := none, MONGO_ADMIN_USER := none,
    MONGO_ADMIN_PASSWORD := some "adminpw", MONGO_DB := none,
    APP_DB_USER := none, APP_DB_PASSWORD := some "apppw" }

/-- The configuration `env_ok` loads to: every default plus the two secrets. -/
def cfg_ok : Config :=
  { MONGO_HOST := "127.0.0.1", MONGO_PORT := 27031, ADMIN_USER := "mongo-1",
    ADMIN_PASS := "adminpw", APP_DB := "appdb", APP_USER := "appuser",
    APP_PASS := "apppw" }

theorem loadConfig_env_ok : loadConfig env_ok = LoadResult.ok cfg_ok := by rfl

/-- C1: with valid configuration and a run in which the create-user command
succeeds, exactly one createUser command is issued, against the configured
target database, with the configured app username and password and a single
readWrite role scoped to that same database, and the created line is
printed. -/
theorem C1_create_success (e : Env) (w : World) (cfg : Config)
    (hcfg : loadConfig e = LoadResult.ok cfg)
    (hctor : w.ctorExc = none) (hsel : w.selectExc = none)
    (hcmd : w.commandResult = none) :
    (runProgram e w).trace = some (create_app_user cfg w) ∧
    (create_app_user cfg w).dbSelected = some cfg.APP_DB ∧
    (create_app_user cfg w).commandsIssued =
      [{ commandName := "createUser", user := cfg.APP_USER, pwd := cfg.APP_PASS,
         roles := [{ role := "readWrite", db := cfg.APP_DB }] }] ∧
    (runProgram e w).printed = [msg_created cfg.APP_USER cfg.APP_DB] := by
  simp [runProgram, hcfg, create_app_user, hctor, hsel, hcmd]

/-- C1 witness: the success theorem instantiated at a concrete environment
and world. -/
theorem C1_create_success_witness :
    (runProgram env_ok w_allOk).trace = some (create_app_user cfg_ok w_allOk) ∧
    (create_app_user cfg_ok w_allOk).dbSelected = some cfg_ok.APP_DB ∧
    (create_app_user cfg_ok w_allOk).commandsIssued =
      [{ commandName := "createUser", user := cfg_ok.APP_USER, pwd := cfg_ok.APP_PASS,
         roles := [{ role := "readWrite", db := cfg_ok.APP_DB }] }] ∧
    (runProgram env_ok w_allOk).printed = [msg_created cfg_ok.APP_USER cfg_ok.APP_DB] :=
  C1_create_success env_ok w_allOk cfg_ok loadConfig_env_ok rfl rfl rfl

/-- An environment with an unparsable port value and the admin password
unset. -/
def env_badport_nopass : Env :=
  { MONGO_HOST := none, MONGO_PORT := some "notanumber", MONGO_ADMIN_USER := none,
    MONGO_ADMIN_PASSWORD := none, MONGO_DB := none, APP_DB_USER := none,
    APP_DB_PASSWORD := none }

/-- C2 counterexample: with the admin password unset but the port variable
set to an unparsable string, the run crashes in `int()` on line 13 before the
password check on line 16 ever runs — nothing is printed to stdout and the
exit is not the printed-error `sys.exit(1)` path, refuting the claim that
every such environment prints an error line via that check. -/
theorem C2_counterexample :
    env_badport_nopass.MONGO_ADMIN_PASSWORD = none ∧
    (runProgram env_badport_nopass w_allOk).printed = [] ∧
    (runProgram env_badport_nopass w_allOk).exit ≠ ExitKind.configExit := by
  refine ⟨rfl, rfl, ?_⟩
  have hx : (runProgram env_badport_nopass w_allOk).exit = ExitKind.parseCrash := rfl
  rw [hx]
  intro h
  exact ExitKind.noConfusion h

/-- C2 (amended): for every environment whose port value (when set) parses as
an integer, if the admin password or the app password variable is unset the
process prints the corresponding error line, exits via `sys.exit(1)` with
code 1, and never constructs the network client. -/
theorem C2_missing_secret (e : Env) (w : World)
    (hport : pyIntParse (e.MONGO_PORT.getD "27031") ≠ none)
    (hmiss : e.MONGO_ADMIN_PASSWORD = none ∨ e.APP_DB_PASSWORD = none) :
    ((runProgram e w).printed = [err_admin_pass] ∨
      (runProgram e w).printed = [err_app_pass]) ∧
    (runProgram e w).exit = ExitKind.configExit ∧
    exitCode (runProgram e w).exit = 1 ∧
    connectionAttempted (runProgram e w) = false ∧
    (runProgram e w).trace = none := by
  cases hp : pyIntParse (e.MONGO_PORT.getD "27031") with
  | none => exact absurd hp hport
  | some p =>
    rcases hmiss with h | h
    · simp [runProgram, loadConfig, hp, h, pyFalsy, connectionAttempted, exitCode]
    · cases hA : e.MONGO_ADMIN_PASSWORD with
      | none =>
        simp [runProgram, loadConfig, hp, hA, pyFalsy, connectionAttempted, exitCode]
      | some s =>
        cases hs : s.isEmpty with
        | true =>
          simp [runProgram, loadConfig, hp, hA, hs, pyFalsy, connectionAttempted,
            exitCode]
        | false =>
          simp [runProgram, loadConfig, hp, hA, hs, h, pyFalsy, connectionAttempted,
            exitCode]

/-- An entirely empty environment: every variable unset. -/
def env_empty : Env :=
  { MONGO_HOST := none, MONGO_PORT := none, MONGO_ADMIN_USER := none,
    MONGO_ADMIN_PASSWORD := none, MONGO_DB := none, APP_DB_USER := none,
    APP_DB_PASSWORD := none }

/-- C2 witness: the amended theorem instantiated at an environment with no
variables set at all. -/
theorem C2_missing_secret_witness :
    ((runProgram env_empty w_allOk).printed = [err_admin_pass] ∨
      (runProgram env_empty w_allOk).printed = [err_app_pass]) ∧
    (runProgram env_empty w_allOk).exit = ExitKind.configExit ∧
    exitCode (runProgram env_empty w_allOk).exit = 1 ∧
    connectionAttempted (runProgram env_empty w_allOk) = false ∧
    (runProgram env_empty w_allOk).trace = none :=
  C2_missing_secret env_empty w_allOk (by decide) (Or.inl rfl)

/-- C3: when the createUser command raises an OperationFailure, the script
prints the already-exists line if the message contains the marker substring
and the generic failure line embedding the message otherwise; either way the
exception is swallowed and the process exits 0. -/
theorem C3_operation_failure (e : Env) (w : World) (cfg : Config) (m : String)
    (hcfg : loadConfig e = LoadResult.ok cfg)
    (hctor : w.ctorExc = none) (hsel : w.selectExc = none)
    (hcmd : w.commandResult = some (PyExc.operationFailure m)) :
    (runProgram e w).printed =
      [if strContains m already_exists_marker then msg_already_exists cfg.APP_USER
        else msg_failed m] ∧
    (runProgram e w).exit = ExitKind.normal ∧
    exitCode (runProgram e w).exit = 0 := by
  simp [runProgram, hcfg, create_app_user, hctor, hsel, hcmd, exitCode]

/-- A world in which the createUser command fails with a duplicate-user
OperationFailure. -/
def w_dup : World :=
  { ctorExc := none, selectExc := none,
    commandResult := some (PyExc.operationFailure "User appuser already exists") }

/-- C3 witness: the OperationFailure theorem instantiated at a concrete
duplicate-user failure message. -/
theorem C3_operation_failure_witness :
    (runProgram env_ok w_dup).printed =
      [if strContains "User appuser already exists" already_exists_marker then
          msg_already_exists cfg_ok.APP_USER
        else msg_failed "User appuser already exists"] ∧
    (runProgram env_ok w_dup).exit = ExitKind.normal ∧
    exitCode (runProgram env_ok w_dup).exit = 0 :=
  C3_operation_failure env_ok w_dup cfg_ok "User appuser already exists"
    loadConfig_env_ok rfl rfl rfl

/-- A world in which the admin credentials are wrong: pymongo reports an
authentication failure as `pymongo.errors.OperationFailure` with message
"Authentication failed." (server error code 18), surfacing at the first
command since connection is lazy. -/
def w_authfail : World :=
  { ctorExc := none, selectExc := none,
    commandResult := some (PyExc.operationFailure "Authentication failed., code 18") }

/-- C5 counterexample: the claim names admin authentication failure as a
connection-establishment failure that propagates uncaught with a non-zero
exit, but pymongo raises it as an OperationFailure, which the except clause
on line 48 catches and classifies: at this input nothing escapes
`create_app_user`, a classification line is printed, and the process exits
0 — not non-zero. -/
theorem C5_counterexample :
    (runProgram env_ok w_authfail).exit = ExitKind.normal ∧
    exitCode (runProgram env_ok w_authfail).exit = 0 ∧
    (create_app_user cfg_ok w_authfail).raised = none ∧
    ((runProgram env_ok w_authfail).printed = [msg_already_exists cfg_ok.APP_USER] ∨
      (runProgram env_ok w_authfail).printed =
        [msg_failed "Authentication failed., code 18"]) := by
  refine ⟨rfl, rfl, rfl, ?_⟩
  cases hc : strContains "Authentication failed., code 18" already_exists_marker with
  | true =>
    exact Or.inl (by
      simp [runProgram, loadConfig_env_ok, create_app_user, w_authfail, cfg_ok, hc,
        msg_already_exists])
  | false =>
    exact Or.inr (by
      simp [runProgram, loadConfig_env_ok, create_app_user, w_authfail, cfg_ok, hc,
        msg_failed])

/-- C5 (amended): a connection-establishment failure raised as an exception
outside the OperationFailure class — as pymongo raises for an unreachable
server (ServerSelectionTimeoutError, a ConnectionFailure) or a failure in
client construction — is not classified by the script: it escapes
`create_app_user` unchanged, nothing is printed, and the process exits
non-zero. An admin authentication failure, by contrast, is raised as an
OperationFailure: the except clause on line 48 catches and classifies it and
the process exits 0. -/
theorem C5_connection_failure (e : Env) (w : World) (cfg : Config) (m : String)
    (hcfg : loadConfig e = LoadResult.ok cfg) :
    ((w.ctorExc = some (PyExc.otherError m) ∨
        (w.ctorExc = none ∧ w.selectExc = none ∧
          w.commandResult = some (PyExc.otherError m))) →
      (runProgram e w).exit = ExitKind.uncaught (PyExc.otherError m) ∧
      exitCode (runProgram e w).exit ≠ 0 ∧
      (runProgram e w).printed = []) ∧
    ((w.ctorExc = none ∧ w.selectExc = none ∧
        w.commandResult = some (PyExc.operationFailure m)) →
      (runProgram e w).exit = ExitKind.normal ∧
      exitCode (runProgram e w).exit = 0 ∧
      (create_app_user cfg w).raised = none) := by
  constructor
  · intro hfail
    rcases hfail with hctor | ⟨hctor, hsel, hcmd⟩
    · simp [runProgram, hcfg, create_app_user, hctor, exitCode]
    · simp [runProgram, hcfg, create_app_user, hctor, hsel, hcmd, exitCode]
  · rintro ⟨hctor, hsel, hcmd⟩
    simp [runProgram, hcfg, create_app_user, hctor, hsel, hcmd, exitCode]

/-- A world in which the server is unreachable: the first actual wire
operation raises a server-selection timeout, not an OperationFailure. -/
def w_unreachable : World :=
  { ctorExc := none, selectExc := none,
    commandResult := some (PyExc.otherError "ServerSelectionTimeoutError: connection refused") }

/-- C5 witness: the amended theorem instantiated at a concrete
unreachable-server world. -/
theorem C5_connection_failure_witness :
    (runProgram env_ok w_unreachable).exit =
      ExitKind.uncaught (PyExc.otherError "ServerSelectionTimeoutError: connection refused") ∧
    exitCode (runProgram env_ok w_unreachable).exit ≠ 0 ∧
    (runProgram env_ok w_unreachable).printed = [] :=
  (C5_connection_failure env_ok w_unreachable cfg_ok
    "ServerSelectionTimeoutError: connection refused"
    loadConfig_env_ok).1 (Or.inr ⟨rfl, rfl, rfl⟩)

/-- C4 counterexample: with both secrets set but the server unreachable, the
server-selection timeout escapes the except clause (it is not an
OperationFailure), so the process exits non-zero with no outcome line —
refuting the claim that every run with both secrets set exits 0. -/
theorem C4_counterexample :
    env_ok.MONGO_ADMIN_PASSWORD = some "adminpw" ∧
    env_ok.APP_DB_PASSWORD = some "apppw" ∧
    exitCode (runProgram env_ok w_unreachable).exit ≠ 0 ∧
    (runProgram env_ok w_unreachable).printed = [] := by
  refine ⟨rfl, rfl, ?_, rfl⟩
  have hx : exitCode (runProgram env_ok w_unreachable).exit = 1 := rfl
  rw [hx]
  exact Nat.one_ne_zero

/-- C4 (amended): when configuration loading succeeds and no pymongo step
raises an exception outside the caught OperationFailure class — i.e. the
client is built, the database selected, and the createUser command either
succeeds or fails with an OperationFailure — the process exits 0 and prints
exactly one of the three outcome lines. -/
theorem C4_outcome_lines (e : Env) (w : World) (cfg : Config)
    (hcfg : loadConfig e = LoadResult.ok cfg)
    (hctor : w.ctorExc = none) (hsel : w.selectExc = none)
    (hcmd : w.commandResult = none ∨
      ∃ m, w.commandResult = some (PyExc.operationFailure m)) :
    exitCode (runProgram e w).exit = 0 ∧
    ∃ line, (runProgram e w).printed = [line] ∧
      (line = msg_created cfg.APP_USER cfg.APP_DB ∨
        line = msg_already_exists cfg.APP_USER ∨
        ∃ m, line = msg_failed m) := by
  rcases hcmd with h | ⟨m, h⟩
  · constructor
    · simp [runProgram, hcfg, create_app_user, hctor, hsel, h, exitCode]
    · exact ⟨msg_created cfg.APP_USER cfg.APP_DB,
        by simp [runProgram, hcfg, create_app_user, hctor, hsel, h], Or.inl rfl⟩
  · cases hc : strContains m already_exists_marker with
    | true =>
      constructor
      · simp [runProgram, hcfg, create_app_user, hctor, hsel, h, exitCode]
      · exact ⟨msg_already_exists cfg.APP_USER,
          by simp [runProgram, hcfg, create_app_user, hctor, hsel, h, hc],
          Or.inr (Or.inl rfl)⟩
    | false =>
      constructor
      · simp [runProgram, hcfg, create_app_user, hctor, hsel, h, exitCode]
      · exact ⟨msg_failed m,
          by simp [runProgram, hcfg, create_app_user, hctor, hsel, h, hc],
          Or.inr (Or.inr ⟨m, rfl⟩)⟩

/-- C4 witness: the amended theorem instantiated at a fully successful run. -/
theorem C4_outcome_lines_witness :
    exitCode (runProgram env_ok w_allOk).exit = 0 ∧
    ∃ line, (runProgram env_ok w_allOk).printed = [line] ∧
      (line = msg_created cfg_ok.APP_USER cfg_ok.APP_DB ∨
        line = msg_already_exists cfg_ok.APP_USER ∨
        ∃ m, line = msg_failed m) :=
  C4_outcome_lines env_ok w_allOk cfg_ok loadConfig_env_ok rfl rfl (Or.inl rfl)

/-- An environment identical to `env_ok` except that the target database
name is set to the empty string — accepted by configuration loading, since
only the two passwords are checked. -/
def env_emptydb : Env :=
  { MONGO_HOST := none, MONGO_PORT := none, MONGO_ADMIN_USER := none,
    MONGO_ADMIN_PASSWORD := some "adminpw", MONGO_DB := some "",
    APP_DB_USER := none, APP_DB_PASSWORD := some "apppw" }

/-- The configuration `env_emptydb` loads to. -/
def cfg_emptydb : Config :=
  { MONGO_HOST := "127.0.0.1", MONGO_PORT := 27031, ADMIN_USER := "mongo-1",
    ADMIN_PASS := "adminpw", APP_DB := "", APP_USER := "appuser",
    APP_PASS := "apppw" }

/-- A world in which selecting the database raises: pymongo raises
`InvalidName` from `client[...]` when the database name is empty. InvalidName
is not an OperationFailure, so nothing in the script catches it. -/
def w_badname : World :=
  { ctorExc := none,
    selectExc := some (PyExc.otherError
      "InvalidName: database name cannot be the empty string"),
    commandResult := none }

/-- C6 counterexample: `client = pymongo.MongoClient(...)` (line 36) and
`db = client[APP_DB]` (line 37) sit before the try/finally, so when database
selection raises — here, `InvalidName` on an empty database name, a
configuration the secret checks accept — the routine terminates with the
client constructed but never closed, refuting release on every exit path of
steps 1-4. -/
theorem C6_counterexample :
    (runProgram env_emptydb w_badname).trace =
      some (create_app_user cfg_emptydb w_badname) ∧
    (create_app_user cfg_emptydb w_badname).clientCreated = true ∧
    (create_app_user cfg_emptydb w_badname).clientClosed = false := by
  exact ⟨rfl, rfl, rfl⟩

/-- C6 (amended): the connection is released on every exit path that enters
the try block — normal return, classified OperationFailure, and uncaught
command exceptions — i.e. whenever database selection did not raise, a
constructed client is always closed; but client construction and database
selection happen before the guarded region, so an exception raised while
selecting the database leaves the client open (and a constructor failure
creates no client at all). -/
theorem C6_close_after_select (cfg : Config) (w : World)
    (hsel : w.selectExc = none) :
    (create_app_user cfg w).clientCreated = true →
    (create_app_user cfg w).clientClosed = true := by
  cases hc : w.ctorExc with
  | some e => simp [create_app_user, hc]
  | none =>
    cases hr : w.commandResult with
    | none => simp [create_app_user, hc, hsel, hr]
    | some ex => cases ex <;> simp [create_app_user, hc, hsel, hr]

/-- C6 witness: the amended theorem instantiated at a fully successful run. -/
theorem C6_close_after_select_witness :
    (create_app_user cfg_ok w_allOk).clientClosed = true :=
  C6_close_after_select cfg_ok w_allOk rfl rfl

/-- C7: every run that constructs the client constructs it with
`serverSelectionTimeoutMS=5000` (line 36), the bounded server-selection
timeout; the approximate wall-clock bound itself is a real-time property
outside the embedding, but the constructor argument is exactly 5000. -/
theorem C7_timeout (e : Env) (w : World) (cfg : Config)
    (hcfg : loadConfig e = LoadResult.ok cfg) (hctor : w.ctorExc = none) :
    (runProgram e w).trace = some (create_app_user cfg w) ∧
    (create_app_user cfg w).clientTimeoutMS = some 5000 ∧
    (create_app_user cfg w).clientUri = some (buildUri cfg) := by
  refine ⟨?_, ?_⟩
  · cases hr : (create_app_user cfg w).raised <;> simp [runProgram, hcfg, hr]
  · cases hs : w.selectExc with
    | some ex => simp [create_app_user, hctor, hs]
    | none =>
      cases hr : w.commandResult with
      | none => simp [create_app_user, hctor, hs, hr]
      | some ex => cases ex <;> simp [create_app_user, hctor, hs, hr]

/-- C7 witness: the timeout theorem instantiated at a fully successful run. -/
theorem C7_timeout_witness :
    (runProgram env_ok w_allOk).trace = some (create_app_user cfg_ok w_allOk) ∧
    (create_app_user cfg_ok w_allOk).clientTimeoutMS = some 5000 ∧
    (create_app_user cfg_ok w_allOk).clientUri = some (buildUri cfg_ok) :=
  C7_timeout env_ok w_allOk cfg_ok loadConfig_env_ok rfl

theorem isEmpty_empty_string : ("" : String).isEmpty = true := rfl

theorem pyIntParse_default : pyIntParse "27031" = some 27031 := rfl

/-- C8: runs that pass configuration validation have both secrets non-empty
at the moment of use (the truthiness checks on lines 16 and 24 reject the
empty string exactly like an unset variable), and any run whose admin or app
password is the empty string terminates with exit status 1 without ever
constructing the client or issuing the command. -/
theorem C8_nonempty_secrets (e : Env) (w : World) :
    (∀ cfg, loadConfig e = LoadResult.ok cfg →
      cfg.ADMIN_PASS ≠ "" ∧ cfg.APP_PASS ≠ "") ∧
    ((e.MONGO_ADMIN_PASSWORD = some "" ∨ e.APP_DB_PASSWORD = some "") →
      exitCode (runProgram e w).exit = 1 ∧
      connectionAttempted (runProgram e w) = false ∧
      (runProgram e w).trace = none) := by
  constructor
  · intro cfg hcfg
    unfold loadConfig at hcfg
    cases hp : pyIntParse (e.MONGO_PORT.getD "27031") with
    | none => rw [hp] at hcfg; exact absurd hcfg (by simp)
    | some p =>
      rw [hp] at hcfg
      cases hA : e.MONGO_ADMIN_PASSWORD with
      | none => rw [hA] at hcfg; simp [pyFalsy] at hcfg
      | some s =>
        rw [hA] at hcfg
        cases hs : s.isEmpty with
        | true => simp [pyFalsy, hs] at hcfg
        | false =>
          cases hB : e.APP_DB_PASSWORD with
          | none => rw [hB] at hcfg; simp [pyFalsy, hs] at hcfg
          | some t =>
            rw [hB] at hcfg
            cases ht : t.isEmpty with
            | true => simp [pyFalsy, hs, ht] at hcfg
            | false =>
              simp only [pyFalsy, hs, ht, Bool.false_eq_true, if_false,
                LoadResult.ok.injEq] at hcfg
              subst hcfg
              constructor
              · intro hcontra
                simp only [Option.getD_some] at hcontra
                rw [hcontra, isEmpty_empty_string] at hs
                exact Bool.noConfusion hs
              · intro hcontra
                simp only [Option.getD_some] at hcontra
                rw [hcontra, isEmpty_empty_string] at ht
                exact Bool.noConfusion ht
  · intro hemp
    cases hp : pyIntParse (e.MONGO_PORT.getD "27031") with
    | none =>
      simp [runProgram, loadConfig, hp, exitCode, connectionAttempted]
    | some p =>
      rcases hemp with h | h
      · simp [runProgram, loadConfig, hp, h, pyFalsy, isEmpty_empty_string,
          exitCode, connectionAttempted]
      · cases hA : e.MONGO_ADMIN_PASSWORD with
        | none =>
          simp [runProgram, loadConfig, hp, hA, pyFalsy, exitCode,
            connectionAttempted]
        | some s =>
          cases hs : s.isEmpty with
          | true =>
            simp [runProgram, loadConfig, hp, hA, hs, pyFalsy, exitCode,
              connectionAttempted]
          | false =>
            simp [runProgram, loadConfig, hp, hA, hs, h, pyFalsy,
              isEmpty_empty_string, exitCode, connectionAttempted]

/-- An environment whose app password is set to the empty string. -/
def env_emptypass : Env :=
  { MONGO_HOST := none, MONGO_PORT := none, MONGO_ADMIN_USER := none,
    MONGO_ADMIN_PASSWORD := some "adminpw", MONGO_DB := none,
    APP_DB_USER := none, APP_DB_PASSWORD := some "" }

/-- C8 witness: the invariant theorem instantiated at an environment whose
app password is the empty string. -/
theorem C8_nonempty_secrets_witness :
    exitCode (runProgram env_emptypass w_allOk).exit = 1 ∧
    connectionAttempted (runProgram env_emptypass w_allOk) = false ∧
    (runProgram env_emptypass w_allOk).trace = none :=
  (C8_nonempty_secrets env_emptypass w_allOk).2 (Or.inr rfl)

/-- C9: every optional variable falls back to its documented default when
unset: host 127.0.0.1, port 27031, admin username mongo-1 (the fixed default
identity), target database appdb, app username appuser. -/
theorem C9_defaults (e : Env) (cfg : Config)
    (hcfg : loadConfig e = LoadResult.ok cfg) :
    (e.MONGO_HOST = none → cfg.MONGO_HOST = "127.0.0.1") ∧
    (e.MONGO_PORT = none → cfg.MONGO_PORT = 27031) ∧
    (e.MONGO_ADMIN_USER = none → cfg.ADMIN_USER = "mongo-1") ∧
    (e.MONGO_DB = none → cfg.APP_DB = "appdb") ∧
    (e.APP_DB_USER = none → cfg.APP_USER = "appuser") := by
  unfold loadConfig at hcfg
  cases hp : pyIntParse (e.MONGO_PORT.getD "27031") with
  | none => rw [hp] at hcfg; exact absurd hcfg (by simp)
  | some p =>
    rw [hp] at hcfg
    cases hA : pyFalsy e.MONGO_ADMIN_PASSWORD with
    | true => rw [hA] at hcfg; simp at hcfg
    | false =>
      rw [hA] at hcfg
      cases hB : pyFalsy e.APP_DB_PASSWORD with
      | true => rw [hB] at hcfg; simp at hcfg
      | false =>
        rw [hB] at hcfg
        simp only [Bool.false_eq_true, if_false, LoadResult.ok.injEq] at hcfg
        subst hcfg
        refine ⟨?_, ?_, ?_, ?_, ?_⟩
        · intro h; simp [h]
        · intro h
          rw [h] at hp
          simp only [Option.getD_none] at hp
          rw [pyIntParse_default] at hp
          simp only [Option.some.injEq] at hp
          simp [hp.symm]
        · intro h; simp [h]
        · intro h; simp [h]
        · intro h; simp [h]

/-- C9 witness: the defaults theorem instantiated at an environment with
every optional variable unset. -/
theorem C9_defaults_witness :
    cfg_ok.MONGO_HOST = "127.0.0.1" ∧ cfg_ok.MONGO_PORT = 27031 ∧
    cfg_ok.ADMIN_USER = "mongo-1" ∧ cfg_ok.APP_DB = "appdb" ∧
    cfg_ok.APP_USER = "appuser" :=
  have h := C9_defaults env_ok cfg_ok loadConfig_env_ok
  ⟨h.1 rfl, h.2.1 rfl, h.2.2.1 rfl, h.2.2.2.1 rfl, h.2.2.2.2 rfl⟩

/-- C10: when the port variable is set to a string `int()` rejects, the run
crashes during configuration loading: exit status 1 via an uncaught
ValueError, nothing printed to stdout (so neither secret check ran), no
client ever constructed, and the printed-error `sys.exit(1)` path never
reached. -/
theorem C10_bad_port (e : Env) (w : World) (s : String)
    (hset : e.MONGO_PORT = some s) (hbad : pyIntParse s = none) :
    (runProgram e w).exit = ExitKind.parseCrash ∧
    exitCode (runProgram e w).exit = 1 ∧
    (runProgram e w).printed = [] ∧
    (runProgram e w).trace = none ∧
    connectionAttempted (runProgram e w) = false ∧
    (runProgram e w).exit ≠ ExitKind.configExit := by
  simp [runProgram, loadConfig, hset, hbad, exitCode, connectionAttempted]

/-- C10 witness: the unparsable-port theorem instantiated at a concrete
environment. -/
theorem C10_bad_port_witness :
    (runProgram env_badport_nopass w_allOk).exit = ExitKind.parseCrash ∧
    exitCode (runProgram env_badport_nopass w_allOk).exit = 1 ∧
    (runProgram env_badport_nopass w_allOk).printed = [] ∧
    (runProgram env_badport_nopass w_allOk).trace = none ∧
    connectionAttempted (runProgram env_badport_nopass w_allOk) = false ∧
    (runProgram env_badport_nopass w_allOk).exit ≠ ExitKind.configExit :=
  C10_bad_port env_badport_nopass w_allOk "notanumber" rfl rfl

end CreateAppUser
